import Mathlib

/-!
Verification development for the Tennis Clash capture pipeline of the
discord-bot repository.  The Python modules `models/player_stats.py`,
`models/capture_queue.py`, `local_processing/process_queue.py`,
`cogs/stats_capture.py` and `utils/image_processing.py` are shallowly
embedded below: pure computations become Lean functions, database writes
become explicit state transformers on row values, and calls into external
libraries (the OCR engine, the regular-expression engine, the Claude
analysis subprocess) are modelled as oracle inputs supplied to the
embedded functions.
-/

set_option maxRecDepth 4000

/-! ## Dedup comparator: `models/player_stats.py` -/

/-- Embedding of the `PlayerStats` dataclass (`models/player_stats.py`).
Database ids and timestamps are modelled as optional naturals. -/
structure PlayerStats where
  id : Option Nat := none
  discord_id : Int := 0
  player_id : Option Nat := none
  character_name : String := ""
  points : Option Int := none
  global_power : Option Int := none
  agility : Option Int := none
  endurance : Option Int := none
  serve : Option Int := none
  volley : Option Int := none
  forehand : Option Int := none
  backhand : Option Int := none
  build_type : Option String := none
  comment : Option String := none
  captured_at : Option Nat := none
  deriving Repr, DecidableEq

/-- Embedding of `PlayerStats.is_same_as` (`models/player_stats.py` lines
281-304).  The Python parameter may be `None`, which the guard
`if not other: return False` sends to `False`; a dataclass instance is
always truthy, so the guard fires exactly on `None`, modelled by the
`Option` argument.  Otherwise the eight stat values are compared. -/
def PlayerStats.is_same_as (self : PlayerStats) : Option PlayerStats → Bool
  | none => false
  | some other =>
      self.points == other.points &&
      self.global_power == other.global_power &&
      self.agility == other.agility &&
      self.endurance == other.endurance &&
      self.serve == other.serve &&
      self.volley == other.volley &&
      self.forehand == other.forehand &&
      self.backhand == other.backhand

/-! ## Queue store: `models/capture_queue.py` and the worker script -/

/-- Status constants of class `CaptureStatus` (`models/capture_queue.py`
lines 19-26). -/
inductive CaptureStatus where
  | pending
  | processing
  | completed
  | validated
  | rejected
  | failed
  deriving Repr, DecidableEq

/-- One row of the `capture_queue` table, following the columns touched by
the embedded queries (`models/capture_queue.py`).  Timestamps are naturals
(`NOW()` is passed in as an explicit clock value), and the serialized
`result_json` / `error_message` columns are optional strings. -/
structure CaptureRow where
  id : Nat
  discord_user_id : Int := 0
  status : CaptureStatus := .pending
  submitted_at : Option Nat := none
  processed_at : Option Nat := none
  validated_at : Option Nat := none
  result_json : Option String := none
  error_message : Option String := none
  deriving Repr, DecidableEq

/-- Embedding of `CaptureQueue.update_status` (`models/capture_queue.py`
lines 190-228) as its effect on the targeted row.  The SQL statement is
`UPDATE capture_queue SET status = $1, [date_field = NOW(),]
result_json = $2, error_message = $3 WHERE id = $4`: the row is selected
by id alone, every listed column is overwritten, and `processed_at`
(for `completed`) or `validated_at` (for `validated` / `rejected`) is set
to the current time. -/
def CaptureRow.update_status (row : CaptureRow) (new_status : CaptureStatus)
    (result_json : Option String) (error_message : Option String)
    (now : Nat) : CaptureRow :=
  let base := { row with
    status := new_status
    result_json := result_json
    error_message := error_message }
  match new_status with
  | .completed => { base with processed_at := some now }
  | .validated => { base with validated_at := some now }
  | .rejected => { base with validated_at := some now }
  | _ => base

/-- Embedding of `update_capture_completed`
(`local_processing/process_queue.py` lines 205-214): `UPDATE capture_queue
SET status = 'completed', processed_at = NOW(), result_json = $1 WHERE
id = $2`.  Again the row is selected by id alone. -/
def update_capture_completed (row : CaptureRow) (result_json : String)
    (now : Nat) : CaptureRow :=
  { row with
    status := .completed
    processed_at := some now
    result_json := some result_json }

/-- Embedding of `update_capture_failed`
(`local_processing/process_queue.py` lines 217-226).  The function exists
in the source but has no caller anywhere in the repository. -/
def update_capture_failed (row : CaptureRow) (error : String)
    (now : Nat) : CaptureRow :=
  { row with
    status := .failed
    processed_at := some now
    error_message := some error }

/-- Outcome of one invocation of the external analysis step
(`call_claude_code` followed by `parse_json_response`): success with the
parsed JSON serialized back, the subprocess timeout, or any other raised
exception carrying its message. -/
inductive ExtractOutcome where
  | success (result_json : String)
  | timeout
  | failure (msg : String)
  deriving Repr, DecidableEq

/-- Embedding of `process_capture` (`local_processing/process_queue.py`
lines 229-280) as its effect on the claimed row: on success the completed
update is issued; on `subprocess.TimeoutExpired` or any other exception
the function prints an error line and returns `False` without issuing any
update, leaving the row exactly as it was.  The returned list models the
console log lines of the error paths. -/
def process_capture (row : CaptureRow) (outcome : ExtractOutcome)
    (now : Nat) : CaptureRow × Bool × List String :=
  match outcome with
  | .success r => (update_capture_completed row r now, true, [])
  | .timeout =>
      (row, false, ["Timeout Claude Code (>180s) (reste en pending pour retry)"])
  | .failure e => (row, false, ["Erreur: " ++ e ++ " (reste en pending pour retry)"])

/-- Every status write the system actually issues against the queue
store, by call site: `update_capture_completed` from the worker's success
path (`process_queue.py` line 262), and `CaptureQueue.update_status`
invoked with `VALIDATED` (`cogs/stats_capture.py` lines 359, 407, 501,
549) or `REJECTED` (lines 442, 569) from the interactive layer.  No other
call site of either function exists in the repository. -/
inductive ExecutedWrite : CaptureRow → CaptureRow → Prop
  | worker (row : CaptureRow) (r : String) (now : Nat) :
      ExecutedWrite row (update_capture_completed row r now)
  | validated (row : CaptureRow) (now : Nat) :
      ExecutedWrite row (row.update_status .validated none none now)
  | rejected (row : CaptureRow) (now : Nat) :
      ExecutedWrite row (row.update_status .rejected none none now)

/-! ## Validation session: `cogs/stats_capture.py` -/

/-- Stats sub-object of the analysis result JSON (`result.get("stats")`). -/
structure ResultStatsJson where
  agility : Option Int := none
  endurance : Option Int := none
  serve : Option Int := none
  volley : Option Int := none
  forehand : Option Int := none
  backhand : Option Int := none
  deriving Repr, DecidableEq

/-- One entry of the `equipment` array of the analysis result JSON. -/
structure EquipJson where
  slot : Option Nat := none
  name : Option String := none
  level : Option Int := none
  deriving Repr, DecidableEq

/-- Parsed analysis result JSON, with the fields `_validate_capture`
reads through `result.get(...)`. -/
structure ResultJson where
  character_name : Option String := none
  character_level : Option Int := none
  points : Option Int := none
  global_power : Option Int := none
  stats : ResultStatsJson := {}
  equipment : List EquipJson := []
  deriving Repr, DecidableEq

/-- Truthiness of an optional string under Python's `or` / `if`: `None`
and the empty string are falsy. -/
def truthyStr : Option String → Bool
  | none => false
  | some s => !s.isEmpty

/-- Truthiness of an optional integer under Python's `if`: `None` and `0`
are falsy. -/
def truthyInt : Option Int → Bool
  | none => false
  | some v => v != 0

/-- Expression `result.get("character_name") or "Inconnu"`
(`cogs/stats_capture.py` line 330). -/
def resultCharacterName (r : ResultJson) : String :=
  match r.character_name with
  | some s => if s.isEmpty then "Inconnu" else s
  | none => "Inconnu"

/-- Temporary `PlayerStats` object built for the dedup comparison
(`cogs/stats_capture.py` lines 341-355). -/
def mkNewStats (userId : Int) (player_id : Nat) (build : String)
    (r : ResultJson) : PlayerStats :=
  { id := none
    discord_id := userId
    player_id := some player_id
    character_name := resultCharacterName r
    points := r.points
    global_power := r.global_power
    agility := r.stats.agility
    endurance := r.stats.endurance
    serve := r.stats.serve
    volley := r.stats.volley
    forehand := r.stats.forehand
    backhand := r.stats.backhand
    build_type := some build }

/-- Result of one run of the save section of `_validate_capture`:
the `player_stats` rows appended, the `player_equipment` rows appended,
the updated queue row, and whether the "no change" message was produced
instead of an insert. -/
structure ValidationOutcome where
  snapshotsAppended : List PlayerStats
  equipmentAppended : List (Option Nat × Option String × Option Int)
  row : CaptureRow
  noChangeReported : Bool
  deriving Repr, DecidableEq

/-- Embedding of the save section of `_validate_capture`
(`cogs/stats_capture.py` lines 328-416; the legacy variant at lines
469-556 runs the identical logic after its selection sub-dialogs).
`last` is the row returned by `PlayerStats.get_latest_for_build` for the
capture's (player, character, build); `fresh` is the id the database
assigns to an inserted row.  When `last` exists and `is_same_as` holds,
the capture is marked validated and nothing is inserted; otherwise
exactly one `player_stats` row is inserted (plus the equipment rows whose
name or level is truthy) and the capture is marked validated. -/
def validate_capture_save (userId : Int) (row : CaptureRow)
    (player_id : Nat) (build : String) (r : ResultJson)
    (last : Option PlayerStats) (fresh : Nat) (now : Nat) :
    ValidationOutcome :=
  let newStats := mkNewStats userId player_id build r
  if last.isSome && newStats.is_same_as last then
    { snapshotsAppended := []
      equipmentAppended := []
      row := row.update_status .validated none none now
      noChangeReported := true }
  else
    let saved := { newStats with id := some fresh }
    let equipment_data := (r.equipment.filter
        (fun eq => truthyStr eq.name || truthyInt eq.level)).map
        (fun eq => (eq.slot, eq.name, eq.level))
    { snapshotsAppended := [saved]
      equipmentAppended := equipment_data
      row := row.update_status .validated none none now
      noChangeReported := false }

/-- Outcome of the `ValidateCaptureView` interactive wait: the user
pressed validate, pressed reject, or the view timed out. -/
inductive SessionOutcome where
  | validate
  | reject
  | timeout
  deriving Repr, DecidableEq

/-- Interactive-process state relevant to the background poller: the
queue rows and the in-memory `self._notified_captures` set (modelled as a
duplicate-free list). -/
structure BotState where
  rows : List CaptureRow
  notified : List Nat
  deriving Repr, DecidableEq

/-- Apply an update to the queue row with the given id. -/
def updateRowById (rows : List CaptureRow) (id : Nat)
    (f : CaptureRow → CaptureRow) : List CaptureRow :=
  rows.map (fun r => if r.id = id then f r else r)

/-- Semantics of `set.add` on the modelled notified set. -/
def notifiedAdd (l : List Nat) (x : Nat) : List Nat :=
  if l.contains x then l else x :: l

/-- Semantics of `set.discard` on the modelled notified set. -/
def notifiedDiscard (l : List Nat) (x : Nat) : List Nat :=
  l.filter (fun y => y ≠ x)

/-- State effect of the tail of `_notify_capture_ready`
(`cogs/stats_capture.py` lines 298-307) once the view resolves:
validate runs `_validate_capture` (capture marked validated, id discarded
from the notified set), reject runs `_reject_capture` (capture marked
rejected, id discarded), and timeout only edits the prompt message —
neither the row nor the notified set is touched.  The snapshot-append
side of the validate branch is modelled by `validate_capture_save`. -/
def session_step (st : BotState) (capId : Nat) (outcome : SessionOutcome)
    (now : Nat) : BotState :=
  match outcome with
  | .validate =>
      { rows := updateRowById st.rows capId
          (fun r => r.update_status .validated none none now)
        notified := notifiedDiscard st.notified capId }
  | .reject =>
      { rows := updateRowById st.rows capId
          (fun r => r.update_status .rejected none none now)
        notified := notifiedDiscard st.notified capId }
  | .timeout => st

/-- One iteration of the loop body of `check_completed_captures`
(`cogs/stats_capture.py` lines 197-218) for a capture that is offered:
the id is first added to `self._notified_captures` (line 217) and the
notification session then runs to its outcome. -/
def poll_notify_one (st : BotState) (capId : Nat)
    (outcome : SessionOutcome) (now : Nat) : BotState :=
  session_step { st with notified := notifiedAdd st.notified capId }
    capId outcome now

/-- Captures the periodic scan actually offers: rows the SQL filter
`status = 'completed'` returns minus those skipped by the in-memory
`if capture_id in self._notified_captures: continue` test
(`cogs/stats_capture.py` lines 186-201). -/
def unnotified_completed (st : BotState) : List CaptureRow :=
  st.rows.filter
    (fun r => r.status == CaptureStatus.completed && !(st.notified.contains r.id))

/-! ## Theorems on the queue store, dedup comparator and session -/

/-- Boolean equality on optional values is symmetric; helper for the
dedup comparator lemmas. -/
theorem obeq_comm {α : Type} [DecidableEq α] (a b : Option α) :
    (a == b) = (b == a) := by
  apply Bool.eq_iff_iff.mpr
  constructor <;> intro h <;> exact beq_iff_eq.mpr (beq_iff_eq.mp h).symm

/-- Characterisation of `PlayerStats.is_same_as` against a present
previous snapshot: it holds exactly when the eight compared stat fields
agree, so equipment and metadata fields (build, comment, ids, dates) play
no role in the equality test. -/
theorem is_same_as_iff (a b : PlayerStats) :
    a.is_same_as (some b) = true ↔
      (a.points = b.points ∧ a.global_power = b.global_power ∧
       a.agility = b.agility ∧ a.endurance = b.endurance ∧
       a.serve = b.serve ∧ a.volley = b.volley ∧
       a.forehand = b.forehand ∧ a.backhand = b.backhand) := by
  simp [PlayerStats.is_same_as, and_assoc]

/-- C10: the Dedup Comparator's equality test is reflexive and symmetric,
and comparing any snapshot against an absent previous snapshot returns
false. -/
theorem dedup_reflexive_symmetric :
    (∀ a : PlayerStats, a.is_same_as (some a) = true) ∧
    (∀ a b : PlayerStats, a.is_same_as (some b) = b.is_same_as (some a)) ∧
    (∀ a : PlayerStats, a.is_same_as none = false) := by
  refine ⟨?_, ?_, fun _ => rfl⟩
  · intro a
    simp [PlayerStats.is_same_as]
  · intro a b
    simp only [PlayerStats.is_same_as]
    rw [obeq_comm a.points, obeq_comm a.global_power, obeq_comm a.agility,
      obeq_comm a.endurance, obeq_comm a.serve, obeq_comm a.volley,
      obeq_comm a.forehand, obeq_comm a.backhand]

/-- C1: validating a completed capture marks it Validated in every case;
when a latest prior snapshot for the same (player, character, build)
exists and the new extraction equals it on points, global power and the
six attributes, no snapshot is appended and "no change" is reported;
when no prior snapshot exists or any compared field differs, exactly one
snapshot is appended.  The final equivalence shows the equality test
reads only those eight fields, so equipment and metadata cannot affect
it. -/
theorem validate_capture_dedup (userId : Int) (row : CaptureRow)
    (player_id : Nat) (build : String) (r : ResultJson)
    (last : Option PlayerStats) (fresh now : Nat) :
    ((validate_capture_save userId row player_id build r last fresh now).row.status
        = CaptureStatus.validated) ∧
    (∀ p, last = some p →
      (mkNewStats userId player_id build r).is_same_as (some p) = true →
        (validate_capture_save userId row player_id build r last fresh now).snapshotsAppended = [] ∧
        (validate_capture_save userId row player_id build r last fresh now).noChangeReported = true) ∧
    (∀ p, last = some p →
      (mkNewStats userId player_id build r).is_same_as (some p) = false →
        (validate_capture_save userId row player_id build r last fresh now).snapshotsAppended.length = 1 ∧
        (validate_capture_save userId row player_id build r last fresh now).noChangeReported = false) ∧
    (last = none →
      (validate_capture_save userId row player_id build r last fresh now).snapshotsAppended.length = 1) ∧
    (∀ a b : PlayerStats, a.is_same_as (some b) = true ↔
      (a.points = b.points ∧ a.global_power = b.global_power ∧
       a.agility = b.agility ∧ a.endurance = b.endurance ∧
       a.serve = b.serve ∧ a.volley = b.volley ∧
       a.forehand = b.forehand ∧ a.backhand = b.backhand)) := by
  refine ⟨?_, ?_, ?_, ?_, is_same_as_iff⟩
  · cases h : last.isSome && (mkNewStats userId player_id build r).is_same_as last <;>
      simp [validate_capture_save, h, CaptureRow.update_status]
  · rintro p rfl hsame
    simp [validate_capture_save, hsame]
  · rintro p rfl hdiff
    simp [validate_capture_save, hdiff]
  · rintro rfl
    simp [validate_capture_save, PlayerStats.is_same_as]

/-- Witness for C1: with an identical prior snapshot nothing is appended;
with no prior snapshot exactly one row is appended. -/
theorem validate_capture_dedup_witness :
    (validate_capture_save 0 { id := 1 } 1 "b" {}
        (some (mkNewStats 0 1 "b" {})) 5 9).snapshotsAppended = [] ∧
    (validate_capture_save 0 { id := 1 } 1 "b" {}
        none 5 9).snapshotsAppended.length = 1 := by
  have h1 := validate_capture_dedup 0 { id := 1 } 1 "b" {}
    (some (mkNewStats 0 1 "b" {})) 5 9
  have h2 := validate_capture_dedup 0 { id := 1 } 1 "b" {} none 5 9
  exact ⟨(h1.2.1 _ rfl (by decide)).1, h2.2.2.2.1 rfl⟩

/-- C2 counterexample: the claim says a completed-write that finds the
row in any status other than Pending leaves the row unchanged, but
`update_capture_completed` updates by id with no status guard — applied
to a Rejected row it still flips the status to Completed. -/
theorem queue_write_unguarded_cex :
    ({ id := 7, status := CaptureStatus.rejected : CaptureRow }).status ≠
        CaptureStatus.pending ∧
    (update_capture_completed { id := 7, status := CaptureStatus.rejected } "r" 3).status
        = CaptureStatus.completed ∧
    update_capture_completed { id := 7, status := CaptureStatus.rejected } "r" 3 ≠
      { id := 7, status := CaptureStatus.rejected } := by
  decide

/-- C2 amended: neither queue-store write carries a status guard; both
the worker's completed-write and the interactive layer's status writes
select the row by id alone and overwrite its status whatever its current
value is. -/
theorem queue_write_unconditional :
    (∀ (row : CaptureRow) (r : String) (now : Nat),
      (update_capture_completed row r now).status = CaptureStatus.completed) ∧
    (∀ (row : CaptureRow) (s : CaptureStatus) (rj em : Option String) (now : Nat),
      (row.update_status s rj em now).status = s) := by
  refine ⟨fun _ _ _ => rfl, ?_⟩
  intro row s rj em now
  cases s <;> rfl

/-- C5: an extraction timeout or any other extraction exception leaves
the claimed row byte-for-byte unchanged (so a Pending row stays Pending
for a later worker pass) while an error line is logged, and no status
write the system ever executes assigns the reserved Failed status. -/
theorem transient_error_leaves_pending :
    (∀ (row : CaptureRow) (now : Nat),
      process_capture row ExtractOutcome.timeout now =
        (row, false, ["Timeout Claude Code (>180s) (reste en pending pour retry)"])) ∧
    (∀ (row : CaptureRow) (e : String) (now : Nat),
      process_capture row (ExtractOutcome.failure e) now =
        (row, false, ["Erreur: " ++ e ++ " (reste en pending pour retry)"])) ∧
    (∀ (row : CaptureRow) (outcome : ExtractOutcome) (now : Nat),
      (outcome = ExtractOutcome.timeout ∨ ∃ e, outcome = ExtractOutcome.failure e) →
      row.status = CaptureStatus.pending →
      (process_capture row outcome now).1.status = CaptureStatus.pending) ∧
    (∀ r r', ExecutedWrite r r' → r'.status ≠ CaptureStatus.failed) := by
  refine ⟨fun _ _ => rfl, fun _ _ _ => rfl, ?_, ?_⟩
  · rintro row outcome now (rfl | ⟨e, rfl⟩) hp <;> exact hp
  · intro r r' h
    cases h with
    | worker s now => simp [update_capture_completed]
    | validated now => simp [CaptureRow.update_status]
    | rejected now => simp [CaptureRow.update_status]

/-- Witness for C5 at a concrete pending row and a concrete executed
write. -/
theorem transient_error_leaves_pending_witness :
    (process_capture { id := 3 } ExtractOutcome.timeout 0).1.status =
        CaptureStatus.pending ∧
    (update_capture_completed { id := 3 } "res" 0).status ≠
        CaptureStatus.failed :=
  ⟨transient_error_leaves_pending.2.2.1 { id := 3 } ExtractOutcome.timeout 0
      (Or.inl rfl) rfl,
   transient_error_leaves_pending.2.2.2 _ _
      (ExecutedWrite.worker { id := 3 } "res" 0)⟩

/-- Helper: after `set.add`, the added id is in the notified set. -/
theorem notifiedAdd_contains_self (l : List Nat) (x : Nat) :
    (notifiedAdd l x).contains x = true := by
  unfold notifiedAdd
  split
  · assumption
  · simp

/-- C3 counterexample: a single completed capture is offered, the prompt
times out; the claim says the capture appears again in the next scan of
completed-but-unnotified captures, but the notified marker added before
the prompt is never cleared on timeout, so the next scan is empty even
though the row is still Completed. -/
theorem poll_timeout_cex :
    (poll_notify_one ⟨[{ id := 1, status := CaptureStatus.completed }], []⟩
        1 SessionOutcome.timeout 0).rows =
      [{ id := 1, status := CaptureStatus.completed }] ∧
    unnotified_completed
      (poll_notify_one ⟨[{ id := 1, status := CaptureStatus.completed }], []⟩
        1 SessionOutcome.timeout 0) = [] := by
  decide

/-- C3 amended: when the validation prompt times out, no state transition
is performed — the rows (and in particular the capture's Completed
status) are untouched — but the capture's notified marker is retained
rather than cleared, so the capture is absent from every later
completed-but-unnotified scan for the life of the process. -/
theorem poll_timeout_amended (st : BotState) (capId : Nat) (now : Nat) :
    (poll_notify_one st capId SessionOutcome.timeout now).rows = st.rows ∧
    (poll_notify_one st capId SessionOutcome.timeout now).notified =
      notifiedAdd st.notified capId ∧
    ∀ r ∈ unnotified_completed
        (poll_notify_one st capId SessionOutcome.timeout now),
      r.id ≠ capId := by
  refine ⟨rfl, rfl, ?_⟩
  intro r hr hid
  have h2 := (List.mem_filter.mp hr).2
  rw [hid] at h2
  rw [show (poll_notify_one st capId SessionOutcome.timeout now).notified =
      notifiedAdd st.notified capId from rfl] at h2
  rw [notifiedAdd_contains_self] at h2
  simp at h2

/-- Witness for C3 amended: a second completed capture is still offered
while the timed-out one is skipped. -/
theorem poll_timeout_amended_witness :
    ({ id := 2, status := CaptureStatus.completed : CaptureRow }).id ≠ 1 :=
  (poll_timeout_amended
      ⟨[{ id := 1, status := CaptureStatus.completed },
        { id := 2, status := CaptureStatus.completed }], []⟩ 1 0).2.2
    { id := 2, status := CaptureStatus.completed } (by decide)

/-! ## Extraction engine: `utils/image_processing.py`

OCR text is modelled as `List Char`.  Calls into the OCR library
(`pytesseract.image_to_string`, which may also raise) and into the
regular-expression library (`re.search` / `re.findall` on the patterns of
`extract_stats_v2`) are modelled as oracle inputs carried by an
`ExtractEnv` value; the numeric-token counting of
`re.findall(backslash-d+, text)` and the level-digit scanning of
`re.findall` with one-or-two-digit groups are implemented directly, since
the embedded logic depends on them. -/

/-- OCR text. -/
abbrev Text := List Char

/-- Accumulator pass of the maximal-digit-run scanner. -/
def digitRunsAux : Text → Text → List Text
  | [], cur => if cur.isEmpty then [] else [cur.reverse]
  | c :: rest, cur =>
      if c.isDigit then digitRunsAux rest (c :: cur)
      else if cur.isEmpty then digitRunsAux rest []
      else cur.reverse :: digitRunsAux rest []

/-- Maximal runs of decimal digits of a text, in order: the matches of
`re.findall` for one-or-more digits. -/
def digitRuns (s : Text) : List Text := digitRunsAux s []

/-- Number of numeric tokens in a text: `len(re.findall(...))` on the
one-or-more-digits pattern (`extract_text_with_debug`, line 156). -/
def countNumericTokens (s : Text) : Nat := (digitRuns s).length

/-- Greedy split of one digit run into groups of at most two digits: how
`re.findall` with a one-or-two-digit group walks a longer run. -/
def chunksOf2 : Text → List Text
  | [] => []
  | [c] => [[c]]
  | c1 :: c2 :: rest => [c1, c2] :: chunksOf2 rest

/-- Numeric value of a digit string, as Python `int` reads it (leading
zeros allowed). -/
def digitsToNat (s : Text) : Nat :=
  s.foldl (fun acc c => acc * 10 + (c.toNat - 48)) 0

/-- All numbers `re.findall` with a one-or-two-digit group yields on a
text, in order (`extract_stats_v2`, line 689). -/
def digitChunks12 (s : Text) : List Nat :=
  (((digitRuns s).map chunksOf2).flatten).map digitsToNat

/-- One loop iteration of `extract_text_with_debug`
(`utils/image_processing.py` lines 149-163): an erroring OCR pass is
skipped, a successful pass replaces the best text exactly when its
numeric-token count strictly exceeds the running maximum. -/
def etwdStep (acc : Text × Nat) (p : Option Text) : Text × Nat :=
  match p with
  | none => acc
  | some text =>
      if acc.2 < countNumericTokens text then (text, countNumericTokens text)
      else acc

/-- Embedding of `extract_text_with_debug` (`utils/image_processing.py`
lines 129-165): fold the per-configuration OCR outcomes (one `Option`
per page-segmentation configuration; `none` models a raised exception)
starting from the empty best text and zero count, and return the best
text. -/
def extract_text_with_debug (passes : List (Option Text)) : Text :=
  (passes.foldl etwdStep ([], 0)).1

/-- Invariant of the best-pass fold of `extract_text_with_debug`: the
result is the initial accumulator or a successful pass's text whose
numeric-token count equals the tracked maximum; the tracked maximum
dominates the initial count and every successful pass's count; and a zero
final maximum means no pass was ever taken. -/
theorem etwd_fold_inv : ∀ (passes : List (Option Text)) (acc : Text × Nat),
    (passes.foldl etwdStep acc = acc ∨
      ((passes.foldl etwdStep acc).1 ∈ passes.filterMap id ∧
        countNumericTokens (passes.foldl etwdStep acc).1 =
          (passes.foldl etwdStep acc).2)) ∧
    acc.2 ≤ (passes.foldl etwdStep acc).2 ∧
    (∀ t ∈ passes.filterMap id,
      countNumericTokens t ≤ (passes.foldl etwdStep acc).2) ∧
    ((passes.foldl etwdStep acc).2 = 0 → passes.foldl etwdStep acc = acc) := by
  intro passes
  induction passes with
  | nil => intro acc; simp
  | cons p rest ih =>
    intro acc
    rw [List.foldl_cons]
    cases p with
    | none =>
      have hstep : etwdStep acc none = acc := rfl
      rw [hstep]
      have ih' := ih acc
      simpa using ih'
    | some t =>
      have hstep : etwdStep acc (some t) =
          if acc.2 < countNumericTokens t then (t, countNumericTokens t)
          else acc := rfl
      rw [hstep]
      by_cases h : acc.2 < countNumericTokens t
      · rw [if_pos h]
        have ih' := ih (t, countNumericTokens t)
        refine ⟨?_, ?_, ?_, ?_⟩
        · rcases ih'.1 with heq | ⟨hm, hc⟩
          · right
            rw [heq]
            exact ⟨by simp, rfl⟩
          · right
            exact ⟨by simp [hm], hc⟩
        · have := ih'.2.1
          simp only at this
          omega
        · intro t' ht'
          simp only [List.filterMap_cons, id] at ht'
          rcases List.mem_cons.mp ht' with rfl | hmem
          · have := ih'.2.1
            simp only at this
            omega
          · exact ih'.2.2.1 t' hmem
        · intro h0
          exfalso
          have := ih'.2.1
          simp only at this
          omega
      · rw [if_neg h]
        have ih' := ih acc
        refine ⟨?_, ih'.2.1, ?_, ih'.2.2.2⟩
        · rcases ih'.1 with heq | ⟨hm, hc⟩
          · exact Or.inl heq
          · exact Or.inr ⟨by simp [hm], hc⟩
        · intro t' ht'
          simp only [List.filterMap_cons, id] at ht'
          rcases List.mem_cons.mp ht' with rfl | hmem
          · have := ih'.2.1
            omega
          · exact ih'.2.2.1 t' hmem

/-- C8: over the page-segmentation passes of one region, a pass that
errors is skipped; when no successful pass yields a numeric token the
empty string is returned; and when some pass yields at least one numeric
token, the returned text is the text of a successful pass and its
numeric-token count is maximal among all successful passes. -/
theorem ocr_best_pass (passes : List (Option Text)) :
    ((∀ t ∈ passes.filterMap id, countNumericTokens t = 0) →
      extract_text_with_debug passes = []) ∧
    (∀ t0 ∈ passes.filterMap id, 0 < countNumericTokens t0 →
      extract_text_with_debug passes ∈ passes.filterMap id ∧
      ∀ t ∈ passes.filterMap id,
        countNumericTokens t ≤
          countNumericTokens (extract_text_with_debug passes)) := by
  have inv := etwd_fold_inv passes ([], 0)
  constructor
  · intro hall
    rcases inv.1 with heq | ⟨hm, hc⟩
    · rw [extract_text_with_debug, heq]
    · have h0 : countNumericTokens (passes.foldl etwdStep ([], 0)).1 = 0 :=
        hall _ hm
      have := inv.2.2.2 (by rw [← hc, h0])
      rw [extract_text_with_debug, this]
  · intro t0 hm0 hpos
    have hge := inv.2.2.1 t0 hm0
    rcases inv.1 with heq | ⟨hm, hc⟩
    · exfalso
      rw [heq] at hge
      omega
    · refine ⟨hm, fun t ht => ?_⟩
      rw [extract_text_with_debug] at *
      rw [hc]
      exact inv.2.2.1 t ht

/-- Witness for C8: a no-digits run returns the empty string; with
digit-bearing passes the returned text is one of the successful passes
(here the two-token pass beats the one-token pass). -/
theorem ocr_best_pass_witness :
    extract_text_with_debug [some "abc".toList, none] = [] ∧
    extract_text_with_debug [none, some "a12b3".toList, some "77".toList] ∈
      [none, some "a12b3".toList, some "77".toList].filterMap id ∧
    extract_text_with_debug [none, some "a12b3".toList, some "77".toList] =
      "a12b3".toList :=
  ⟨(ocr_best_pass _).1 (by decide),
   ((ocr_best_pass _).2 ("a12b3".toList) (by decide) (by decide)).1,
   by decide⟩

/-- Canonical display-name corrections for recurring OCR misspellings,
`CANONICAL_NAMES` of `extract_stats_v2` (lines 720-724). -/
def CANONICAL_NAMES : List (String × String) :=
  [("enciume", "Enclume"), ("enctume", "Enclume")]

/-- Bilingual card-name catalog `CARD_TO_SLOT` of `extract_stats_v2`
(lines 728-784), in source (dictionary insertion) order. -/
def CARD_TO_SLOT : List (String × Nat) :=
  [("basique", 1), ("starter racket", 1),
   ("aigle", 1), ("eagle", 1),
   ("panthere", 1), ("panthère", 1), ("panther", 1), ("panter", 1),
   ("samourai", 1), ("samouraï", 1),
   ("patriote", 1), ("patriot", 1),
   ("outback", 1),
   ("marteau", 1), ("hammer", 1),
   ("mille", 1), ("bullseye", 1),
   ("zeus", 1),
   ("guerrier", 2), ("warrior", 2),
   ("machette", 2), ("machete", 2),
   ("katana", 2),
   ("griffe", 2), ("talon", 2),
   ("cobra", 2),
   ("forge", 2),
   ("tactique", 2), ("tactical", 2),
   ("titan", 2),
   ("raptor", 3),
   ("chasseur", 3), ("hunter", 3),
   ("enclume", 3), ("enciume", 3), ("enctume", 3), ("anvil", 3),
   ("ballistique", 3), ("balistique", 3), ("ballistic", 3),
   ("plume", 3), ("feather", 3),
   ("piranha", 3),
   ("shuriken", 3),
   ("hades", 3), ("hadès", 3),
   ("missile", 4), ("rocket", 4),
   ("ara", 4), ("macaw", 4),
   ("kodiak", 4),
   ("bouclier", 4), ("shield", 4),
   ("tomahawk", 4),
   ("pirate", 4), ("jolly", 4),
   ("koi", 4), ("koï", 4),
   ("gladiateur", 4), ("gladiator", 4),
   ("vegane", 5), ("végane", 5), ("vegan", 5),
   ("antioxydants", 5), ("antioxidants", 5),
   ("hydratation", 5),
   ("energie", 5), ("énergie", 5), ("energy", 5),
   ("proteine", 5), ("protéine", 5), ("protein", 5),
   ("macrobiotique", 5), ("macrobiotic", 5),
   ("cetogene", 5), ("cétogène", 5), ("keto", 5),
   ("glucides", 5), ("carboload", 5),
   ("pliometrie", 6), ("pliométrie", 6), ("plyometrics", 6),
   ("musculation", 6), ("weight", 6), ("lifting", 6),
   ("endurance", 6),
   ("alpinisme", 6), ("mountain", 6), ("climber", 6),
   ("vitesse", 6), ("sprint", 6),
   ("halterophilie", 6), ("haltérophilie", 6), ("powerlifting", 6),
   ("elastique", 6), ("élastique", 6), ("resistance", 6),
   ("fentes", 6), ("lunges", 6)]

/-- Accent stripping of `extract_stats_v2` (lines 789-790 and 810-811):
the chained `replace` calls mapping the lowercase accented vowels to
their plain forms. -/
def normChar (c : Char) : Char :=
  if c = 'é' ∨ c = 'è' ∨ c = 'ê' then 'e'
  else if c = 'ï' then 'i'
  else if c = 'ô' then 'o'
  else if c = 'à' then 'a'
  else c

/-- Apply the accent replacements to a text. -/
def normalizeAccents (s : Text) : Text := s.map normChar

/-- Python `str.lower()`, modelled on the ASCII range (catalog keys are
already lowercase; only oracle OCR text passes through this). -/
def pyLower (s : Text) : Text := s.map Char.toLower

/-- Lowercasing then accent stripping, the treatment of the combined
equipment OCR text (lines 787-790). -/
def normalizeText (s : Text) : Text := normalizeAccents (pyLower s)

/-- Normalised form of a catalog key (lines 810-811 and 824-825: the
keys receive the accent replacements but no lowering). -/
def normKey (key : String) : Text := normalizeAccents key.toList

/-- Python `str.capitalize()`: first character uppercased, the rest
lowercased (ASCII-modelled as above). -/
def pyCapitalize (s : String) : String :=
  match s.toList with
  | [] => ""
  | c :: rest => String.mk (c.toUpper :: rest.map Char.toLower)

/-- Display name of a catalog key:
`CANONICAL_NAMES.get(card_key, card_key.capitalize())` (lines 815 and
828). -/
def displayName (key : String) : String :=
  match CANONICAL_NAMES.lookup key with
  | some d => d
  | none => pyCapitalize key

/-- Check that `needle` occurs at the head of `hay`. -/
def leadsWith : Text → Text → Bool
  | [], _ => true
  | _ :: _, [] => false
  | c :: cs, d :: ds => c == d && leadsWith cs ds

/-- Python substring containment `needle in hay` on texts. -/
def containsSeq (needle : Text) : Text → Bool
  | [] => needle.isEmpty
  | c :: t => leadsWith needle (c :: t) || containsSeq needle t

/-- The inner catalog scan of `extract_stats_v2` (lines 809-818): walk
`CARD_TO_SLOT` in order and return the slot and display name of the
first key whose normalised form contains, or is contained in, the
matched name; the loop breaks at that first key. -/
def resolveName (name : Text) : Option (Nat × String) :=
  CARD_TO_SLOT.findSome? (fun ks =>
    if containsSeq (normKey ks.1) name || containsSeq name (normKey ks.1) then
      some (ks.2, displayName ks.1)
    else none)

/-- One extracted equipment entry, the `ExtractedEquipment` dataclass
(`utils/image_processing.py` lines 272-277). -/
structure ExtractedEquipment where
  slot : Nat
  card_name : Option String := none
  card_level : Option Nat := none
  deriving Repr, DecidableEq

/-- Result of one extraction attempt, the `ExtractedStats` dataclass
(lines 280-301).  Confidence is an exact rational. -/
structure ExtractedStats where
  character_name : Option String := none
  character_level : Option Nat := none
  points : Option Nat := none
  global_power : Option Nat := none
  agility : Option Nat := none
  endurance : Option Nat := none
  serve : Option Nat := none
  volley : Option Nat := none
  forehand : Option Nat := none
  backhand : Option Nat := none
  equipment : List ExtractedEquipment := []
  confidence : ℚ := 0
  warnings : List String := []
  deriving Repr, DecidableEq

/-- Raise windows of the body of `extract_stats_v2` that reach its
catch-all handler (lines 876-879).  For a decoded image the stats pass
(lines 528-573) contains no raisable operation outside the per-config
OCR try of `extract_text_with_debug`, so the first window opens after
the stat fields and their warnings are fixed: `equipScan` covers the
equipment section (lines 580-699: debug `cv2.imwrite` calls, the zone
crops and `cv2.cvtColor`/`resize` on possibly degenerate zones, the
debug-directory `mkdir`), raised before the character level, the
equipment list or the confidence are written; `diagnosticSave` covers
`_save_failed_detection` (its `failed_dir.mkdir` at line 895 sits
outside that helper's own try), which runs after the confidence is
written and only when the confidence is below 0.7. -/
inductive RaiseStage where
  | equipScan
  | diagnosticSave
  deriving Repr, DecidableEq

/-- Oracle inputs of one run of `extract_stats_v2`: whether the path
exists and `cv2.imread` decodes it, the OCR outcomes of the three
page-segmentation passes over each preprocessed region, the captures the
regular-expression library returns on the stats text (name/points
pattern, name-only fallback pattern, one capture per attribute pattern),
the per-zone digit OCR outcomes (index 0 is the character card, 1-6 the
equipment slots, one `Option Text` per page-segmentation mode tried),
the (word, level) pairs the card pattern yields on the cleaned equipment
text, and — when the underlying libraries raise an exception that the
body does not catch locally — the window in which the exception occurs
together with its `str(e)` message. -/
structure ExtractEnv where
  imageExists : Bool := true
  imageDecodable : Bool := true
  statsPasses : List (Option Text) := []
  nameMatch : Option (String × Nat) := none
  nameOnlyMatch : Option String := none
  mGlobalPower : Option Nat := none
  mAgility : Option Nat := none
  mEndurance : Option Nat := none
  mServe : Option Nat := none
  mVolley : Option Nat := none
  mForehand : Option Nat := none
  mBackhand : Option Nat := none
  equipPassesA : List (Option Text) := []
  equipPassesB : List (Option Text) := []
  equipPassesC : List (Option Text) := []
  zonePasses : Nat → List (Option Text) := fun _ => []
  cardMatches : List (Text × Nat) := []
  raiseAt : Option (RaiseStage × String) := none

/-- Count one populated optional field. -/
def cntOpt {α : Type} (o : Option α) : Nat := if o.isSome then 1 else 0

/-- Name-and-points stage of `extract_stats_v2` (lines 537-551): the
name pattern populates name and points and counts two fields; otherwise
the name-only fallback populates the name, counts one field and warns
that points were not detected; otherwise nothing is populated.  Returns
(name, points, count, warnings). -/
def nameStage (nameMatch : Option (String × Nat))
    (nameOnly : Option String) :
    Option String × Option Nat × Nat × List String :=
  match nameMatch with
  | some nm => (some nm.1, some nm.2, 2, [])
  | none =>
      match nameOnly with
      | some nm => (some nm, none, 1, ["Points non detectes"])
      | none => (none, none, 0, [])

/-- One iteration of the attribute loop of `extract_stats_v2` (lines
563-573): a matched value is stored and counted only when it lies in
1..999, an out-of-range value is dropped with an out-of-range warning,
and a missing match leaves the field empty with a not-detected warning.
Returns (field, count, warnings). -/
def applyStat (label : String) (m : Option Nat) :
    Option Nat × Nat × List String :=
  match m with
  | some v =>
      if 1 ≤ v ∧ v ≤ 999 then (some v, 1, [])
      else (none, 0, [label ++ ": valeur hors limite (" ++ toString v ++ ")"])
  | none => (none, 0, [label ++ ": non detecte"])

/-- First number in the plausible card-level range 8..20 among the
numbers of a list, as the zone loop accepts them (lines 689-694). -/
def firstValidLevel (ns : List Nat) : Option Nat :=
  ns.find? (fun n => 8 ≤ n && n ≤ 20)

/-- Per-zone level detection (lines 678-696): the page-segmentation
modes are tried in order, an erroring pass contributes nothing, and the
first number in 8..20 found across the passes is kept for the zone. -/
def detectLevel (passes : List (Option Text)) : Option Nat :=
  passes.foldl (fun acc p =>
    match acc with
    | some _ => acc
    | none =>
        match p with
        | none => none
        | some t => firstValidLevel (digitChunks12 t)) none

/-- The `found_equipment` dictionary: slot to (name, level), looked up
through its most recent binding. -/
abbrev FoundMap := List (Nat × (Option String × Option Nat))

/-- First phase of equipment resolution (lines 800-818): for each
(word, level) match of the card pattern, levels outside 8..20 are
skipped, the word is resolved against the catalog, and the first
resolution for a slot wins. -/
def applyCardMatches (ms : List (Text × Nat)) (fm : FoundMap) :
    FoundMap :=
  ms.foldl (fun fm m =>
    if 8 ≤ m.2 ∧ m.2 ≤ 20 then
      match resolveName m.1 with
      | some sd =>
          if (fm.lookup sd.1).isSome then fm
          else (sd.1, (some sd.2, some m.2)) :: fm
      | none => fm
    else fm) fm

/-- Second phase (lines 821-830): catalog names found bare in the
normalised equipment text fill still-empty slots with a name and no
level. -/
def applyNameOnly (textNorm : Text) (fm : FoundMap) : FoundMap :=
  CARD_TO_SLOT.foldl (fun fm ks =>
    if (fm.lookup ks.2).isSome then fm
    else if containsSeq (normKey ks.1) textNorm then
      (ks.2, (some (displayName ks.1), none)) :: fm
    else fm) fm

/-- Third phase (lines 837-847): per-zone detected levels fill a missing
level on a named slot, or create a level-only entry for an empty slot. -/
def applyZoneLevels (detected : Nat → Option Nat) (fm : FoundMap) :
    FoundMap :=
  (List.range' 1 6).foldl (fun fm slot =>
    match detected slot with
    | none => fm
    | some lvl =>
        match fm.lookup slot with
        | some e =>
            match e.2 with
            | none => (slot, (e.1, some lvl)) :: fm
            | some _ => fm
        | none => (slot, (none, some lvl)) :: fm) fm

/-- Combined normalised equipment text (lines 710 and 787-790): the
three equipment OCR passes joined by newlines, lowercased, accents
stripped. -/
def equipTextNormalized (env : ExtractEnv) : Text :=
  normalizeText (extract_text_with_debug env.equipPassesA ++
    '\n' :: extract_text_with_debug env.equipPassesB ++
    '\n' :: extract_text_with_debug env.equipPassesC)

/-- The assembled `found_equipment` dictionary after the three phases. -/
def foundEquipment (env : ExtractEnv) : FoundMap :=
  applyZoneLevels (fun z => detectLevel (env.zonePasses z))
    (applyNameOnly (equipTextNormalized env)
      (applyCardMatches env.cardMatches []))

/-- Assembly of one slot's entry (lines 852-861): a found entry carries
its name and level, an absent slot yields the empty item. -/
def assembleSlot (fm : FoundMap) (slot : Nat) : ExtractedEquipment :=
  match fm.lookup slot with
  | some e => { slot := slot, card_name := e.1, card_level := e.2 }
  | none => { slot := slot }

/-- Running `found_count` of one successful run of `extract_stats_v2`,
exactly as the source accumulates it: two, one or zero fields from the
name stage (lines 537-551), one per in-range attribute match (line 569),
one for a detected character level (line 706), and one per populated
equipment name or level (lines 857-860). -/
def extractFoundCount (env : ExtractEnv) : Nat :=
  (nameStage env.nameMatch env.nameOnlyMatch).2.2.1 +
  ((applyStat "global_power" env.mGlobalPower).2.1 +
   (applyStat "agility" env.mAgility).2.1 +
   (applyStat "endurance" env.mEndurance).2.1 +
   (applyStat "serve" env.mServe).2.1 +
   (applyStat "volley" env.mVolley).2.1 +
   (applyStat "forehand" env.mForehand).2.1 +
   (applyStat "backhand" env.mBackhand).2.1) +
  cntOpt (detectLevel (env.zonePasses 0)) +
  (((List.range' 1 6).map (assembleSlot (foundEquipment env))).map
    (fun e => cntOpt e.card_name + cntOpt e.card_level)).sum

/-- State of the mutated `result` once the stats pass (lines 528-573)
has run: name, points and the seven attributes with their warnings are
fixed; the character level, the equipment list and the confidence still
hold their initial values. -/
def extractStatsPass (env : ExtractEnv) : ExtractedStats :=
  { character_name := (nameStage env.nameMatch env.nameOnlyMatch).1
    points := (nameStage env.nameMatch env.nameOnlyMatch).2.1
    global_power := (applyStat "global_power" env.mGlobalPower).1
    agility := (applyStat "agility" env.mAgility).1
    endurance := (applyStat "endurance" env.mEndurance).1
    serve := (applyStat "serve" env.mServe).1
    volley := (applyStat "volley" env.mVolley).1
    forehand := (applyStat "forehand" env.mForehand).1
    backhand := (applyStat "backhand" env.mBackhand).1
    warnings := (nameStage env.nameMatch env.nameOnlyMatch).2.2.2 ++
      ((applyStat "global_power" env.mGlobalPower).2.2 ++
       (applyStat "agility" env.mAgility).2.2 ++
       (applyStat "endurance" env.mEndurance).2.2 ++
       (applyStat "serve" env.mServe).2.2 ++
       (applyStat "volley" env.mVolley).2.2 ++
       (applyStat "forehand" env.mForehand).2.2 ++
       (applyStat "backhand" env.mBackhand).2.2) }

/-- State of `result` once the whole body has run (lines 528-866): on
top of the stats pass, the zone scan populates the character level (line
705), the three-phase equipment resolution fills the six slots (lines
852-861), and the confidence is the running count of populated fields
divided by the fixed total of 22 (lines 863-866). -/
def extractMain (env : ExtractEnv) : ExtractedStats :=
  { extractStatsPass env with
    character_level := detectLevel (env.zonePasses 0)
    equipment := (List.range' 1 6).map (assembleSlot (foundEquipment env))
    confidence := (extractFoundCount env : ℚ) / 22 }

/-- The read-succeeded body of `extract_stats_v2` including its
catch-all `except Exception` handler (lines 876-879), which appends
`Erreur: str(e)` to the warnings of the result as mutated so far and
returns it.  An exception in the equipment section escapes with the
stats-pass state; an exception inside `_save_failed_detection` (which
only runs when the finished confidence is below 0.7) escapes with the
finished state. -/
def extractBody (env : ExtractEnv) : ExtractedStats :=
  match env.raiseAt with
  | none => extractMain env
  | some se =>
      match se.1 with
      | .equipScan =>
          { extractStatsPass env with
            warnings := (extractStatsPass env).warnings ++
              ["Erreur: " ++ se.2] }
      | .diagnosticSave =>
          if (extractMain env).confidence < (7 : ℚ) / 10 then
            { extractMain env with
              warnings := (extractMain env).warnings ++
                ["Erreur: " ++ se.2] }
          else extractMain env

/-- Embedding of `extract_stats_v2` (`utils/image_processing.py` lines
495-879) over the oracle inputs.  A missing or undecodable image returns
an empty result with a warning and zero confidence (lines 512-523);
otherwise the body runs under the catch-all handler. -/
def extract_stats_v2 (env : ExtractEnv) : ExtractedStats :=
  if !env.imageExists then
    { warnings := ["Image non trouvee"] }
  else if !env.imageDecodable then
    { warnings := ["Impossible de lire l\x27image"] }
  else
    extractBody env

/-- Number of populated fields of a result, over the 22 expected fields:
name, points, the seven attribute values, the character level, and name
and level of each equipment entry. -/
def countPopulated (r : ExtractedStats) : Nat :=
  cntOpt r.character_name + cntOpt r.points + cntOpt r.global_power +
  cntOpt r.agility + cntOpt r.endurance + cntOpt r.serve +
  cntOpt r.volley + cntOpt r.forehand + cntOpt r.backhand +
  cntOpt r.character_level +
  (r.equipment.map (fun e => cntOpt e.card_name + cntOpt e.card_level)).sum

/-- The name stage counts exactly its populated fields. -/
theorem nameStage_count (a : Option (String × Nat)) (b : Option String) :
    (nameStage a b).2.2.1 = cntOpt (nameStage a b).1 + cntOpt (nameStage a b).2.1 := by
  cases a with
  | some nm => rfl
  | none => cases b <;> rfl

/-- The name stage counts at most two fields. -/
theorem nameStage_count_le (a : Option (String × Nat)) (b : Option String) :
    (nameStage a b).2.2.1 ≤ 2 := by
  cases a with
  | some nm => exact le_refl 2
  | none => cases b <;> simp [nameStage]

/-- One attribute iteration counts exactly its populated field. -/
theorem applyStat_count (l : String) (m : Option Nat) :
    (applyStat l m).2.1 = cntOpt (applyStat l m).1 := by
  cases m with
  | none => rfl
  | some v =>
      simp only [applyStat]
      split <;> rfl

/-- One attribute iteration counts at most one field. -/
theorem applyStat_count_le (l : String) (m : Option Nat) :
    (applyStat l m).2.1 ≤ 1 := by
  cases m with
  | none => simp [applyStat]
  | some v =>
      simp only [applyStat]
      split <;> simp

/-- A stored attribute value always lies in 1..999. -/
theorem applyStat_range (l : String) (m : Option Nat) :
    ∀ v, (applyStat l m).1 = some v → 1 ≤ v ∧ v ≤ 999 := by
  intro v hv
  cases m with
  | none => exact absurd hv (by simp [applyStat])
  | some w =>
      simp only [applyStat] at hv
      split at hv
      · cases hv
        assumption
      · cases hv

/-- An out-of-range match is dropped and recorded as an out-of-range
warning. -/
theorem applyStat_discard (l : String) (v : Nat) (h : ¬(1 ≤ v ∧ v ≤ 999)) :
    (applyStat l (some v)).1 = none ∧
    (applyStat l (some v)).2.2 =
      [l ++ ": valeur hors limite (" ++ toString v ++ ")"] := by
  have hv : applyStat l (some v) =
      (none, 0, [l ++ ": valeur hors limite (" ++ toString v ++ ")"]) := by
    show (if 1 ≤ v ∧ v ≤ 999 then ((some v : Option Nat), 1, ([] : List String))
        else (none, 0, [l ++ ": valeur hors limite (" ++ toString v ++ ")"])) = _
    rw [if_neg h]
  rw [hv]
  exact ⟨rfl, rfl⟩

/-- A populated-field counter is at most one. -/
theorem cntOpt_le_one {α : Type} (o : Option α) : cntOpt o ≤ 1 := by
  unfold cntOpt
  split <;> omega

/-- The slot field of an assembled entry is the requested slot. -/
theorem assembleSlot_slot (fm : FoundMap) (slot : Nat) :
    (assembleSlot fm slot).slot = slot := by
  unfold assembleSlot
  cases fm.lookup slot <;> rfl

/-- The equipment part of the count is at most twelve. -/
theorem equipSum_le (fm : FoundMap) :
    (((List.range' 1 6).map (assembleSlot fm)).map
      (fun e => cntOpt e.card_name + cntOpt e.card_level)).sum ≤ 12 := by
  have hb : ∀ x ∈ ((List.range' 1 6).map (assembleSlot fm)).map
      (fun e => cntOpt e.card_name + cntOpt e.card_level), x ≤ 2 := by
    intro x hx
    simp only [List.mem_map] at hx
    obtain ⟨e, _, rfl⟩ := hx
    have h1 := cntOpt_le_one e.card_name
    have h2 := cntOpt_le_one e.card_level
    omega
  have := List.sum_le_card_nsmul _ 2 hb
  simpa using this

/-- The running count of a successful run never exceeds 22. -/
theorem extractFoundCount_le (env : ExtractEnv) :
    extractFoundCount env ≤ 22 := by
  have h0 := nameStage_count_le env.nameMatch env.nameOnlyMatch
  have h1 := applyStat_count_le "global_power" env.mGlobalPower
  have h2 := applyStat_count_le "agility" env.mAgility
  have h3 := applyStat_count_le "endurance" env.mEndurance
  have h4 := applyStat_count_le "serve" env.mServe
  have h5 := applyStat_count_le "volley" env.mVolley
  have h6 := applyStat_count_le "forehand" env.mForehand
  have h7 := applyStat_count_le "backhand" env.mBackhand
  have h8 := cntOpt_le_one (detectLevel (env.zonePasses 0))
  have h9 := equipSum_le (foundEquipment env)
  unfold extractFoundCount
  omega

/-- On a successful run the running count equals the number of populated
fields of the returned result. -/
theorem countPopulated_extractMain (env : ExtractEnv) :
    countPopulated (extractMain env) = extractFoundCount env := by
  simp only [countPopulated, extractMain, extractStatsPass, extractFoundCount]
  rw [nameStage_count]
  simp only [applyStat_count]
  ring

/-- A positive read reduces the extraction to its body. -/
theorem extract_stats_v2_readable (env : ExtractEnv)
    (h1 : env.imageExists = true) (h2 : env.imageDecodable = true) :
    extract_stats_v2 env = extractBody env := by
  simp [extract_stats_v2, h1, h2]

/-- A positive read with no uncaught internal exception reduces the
extraction to its finished state. -/
theorem extract_stats_v2_main (env : ExtractEnv)
    (h1 : env.imageExists = true) (h2 : env.imageDecodable = true)
    (h3 : env.raiseAt = none) :
    extract_stats_v2 env = extractMain env := by
  rw [extract_stats_v2_readable env h1 h2]
  unfold extractBody
  rw [h3]

/-- Appending a warning changes no counted field. -/
theorem countPopulated_warnings (r : ExtractedStats) (w : List String) :
    countPopulated { r with warnings := w } = countPopulated r := rfl

/-- An equipment-section abort returns exactly the stats-pass state with
the error warning appended. -/
theorem extractBody_equipScan (env : ExtractEnv) (e : String)
    (h : env.raiseAt = some (RaiseStage.equipScan, e)) :
    extractBody env = { extractStatsPass env with
      warnings := (extractStatsPass env).warnings ++ ["Erreur: " ++ e] } := by
  unfold extractBody
  rw [h]

/-- A diagnostic-save abort returns the finished state, with the error
warning appended exactly when the finished confidence is below 0.7. -/
theorem extractBody_diagnosticSave (env : ExtractEnv) (e : String)
    (h : env.raiseAt = some (RaiseStage.diagnosticSave, e)) :
    extractBody env =
      if (extractMain env).confidence < (7 : ℚ) / 10 then
        { extractMain env with
          warnings := (extractMain env).warnings ++ ["Erreur: " ++ e] }
      else extractMain env := by
  unfold extractBody
  rw [h]

/-- Replacing the warnings of a result with their own value is the
identity. -/
theorem withWarnings_self (r : ExtractedStats) :
    ({ r with warnings := r.warnings } : ExtractedStats) = r := rfl

/-- Whatever the raise oracle says, the body returns either the
finished state or the stats-pass state, in both cases possibly with an
appended error warning. -/
theorem extractBody_cases (env : ExtractEnv) :
    (∃ w, extractBody env = { extractMain env with warnings := w }) ∨
    (∃ w, extractBody env = { extractStatsPass env with warnings := w }) := by
  cases h3 : env.raiseAt with
  | none =>
      left
      refine ⟨(extractMain env).warnings, ?_⟩
      rw [withWarnings_self]
      unfold extractBody
      rw [h3]
  | some se =>
      obtain ⟨stage, e⟩ := se
      cases stage with
      | equipScan =>
          exact Or.inr ⟨_, extractBody_equipScan env e h3⟩
      | diagnosticSave =>
          left
          rw [extractBody_diagnosticSave env e h3]
          split
          · exact ⟨_, rfl⟩
          · exact ⟨(extractMain env).warnings, (withWarnings_self _).symm⟩

/-- C4 counterexample: a readable run whose stats pass populated the
name and the points, aborted by an uncaught exception in the equipment
section, returns confidence 0 while two fields are populated, so the
claimed identity confidence = populated / 22 fails. -/
theorem confidence_formula_cex :
    (extract_stats_v2
        { nameMatch := some ("Mei-Li", 1770)
          raiseAt := some (RaiseStage.equipScan, "boom") }).confidence ≠
      (countPopulated (extract_stats_v2
        { nameMatch := some ("Mei-Li", 1770)
          raiseAt := some (RaiseStage.equipScan, "boom") }) : ℚ) / 22 := by
  have h1 : (extract_stats_v2
      { nameMatch := some ("Mei-Li", 1770)
        raiseAt := some (RaiseStage.equipScan, "boom") }).confidence = 0 := rfl
  have h2 : countPopulated (extract_stats_v2
      { nameMatch := some ("Mei-Li", 1770)
        raiseAt := some (RaiseStage.equipScan, "boom") }) = 2 := rfl
  rw [h1, h2]
  norm_num

/-- C4 amended: the confidence always lies in [0, 1]; every run that is
not aborted inside the equipment section — in particular every run that
reaches the confidence assignment — returns confidence = populated
fields / 22 exactly; a run aborted in the equipment section returns
confidence 0 with the error warning appended, whatever fields its stats
pass populated. -/
theorem confidence_formula_amended (env : ExtractEnv) :
    (0 ≤ (extract_stats_v2 env).confidence ∧
      (extract_stats_v2 env).confidence ≤ 1) ∧
    ((∀ e, env.raiseAt ≠ some (RaiseStage.equipScan, e)) →
      (extract_stats_v2 env).confidence =
        (countPopulated (extract_stats_v2 env) : ℚ) / 22) ∧
    (∀ e, env.imageExists = true → env.imageDecodable = true →
      env.raiseAt = some (RaiseStage.equipScan, e) →
      (extract_stats_v2 env).confidence = 0 ∧
      ("Erreur: " ++ e) ∈ (extract_stats_v2 env).warnings) := by
  have hmain : ∀ w : List String,
      ({ extractMain env with warnings := w } : ExtractedStats).confidence =
        (extractFoundCount env : ℚ) / 22 := fun _ => rfl
  have hbound : 0 ≤ (extractFoundCount env : ℚ) / 22 ∧
      (extractFoundCount env : ℚ) / 22 ≤ 1 := by
    constructor
    · positivity
    · rw [div_le_one (by norm_num)]
      exact_mod_cast extractFoundCount_le env
  cases h1 : env.imageExists with
  | false =>
      have hr : extract_stats_v2 env = { warnings := ["Image non trouvee"] } := by
        simp [extract_stats_v2, h1]
      rw [hr]
      refine ⟨⟨by norm_num, by norm_num⟩,
        fun _ => by norm_num [countPopulated, cntOpt], ?_⟩
      intro e he _ _
      exact Bool.noConfusion he
  | true =>
      cases h2 : env.imageDecodable with
      | false =>
          have hr : extract_stats_v2 env =
              { warnings := ["Impossible de lire l\x27image"] } := by
            simp [extract_stats_v2, h1, h2]
          rw [hr]
          refine ⟨⟨by norm_num, by norm_num⟩,
            fun _ => by norm_num [countPopulated, cntOpt], ?_⟩
          intro e _ he _
          exact Bool.noConfusion he
      | true =>
          rw [extract_stats_v2_readable env h1 h2]
          refine ⟨?_, ?_, ?_⟩
          · rcases extractBody_cases env with ⟨w, hw⟩ | ⟨w, hw⟩
            · rw [hw, hmain]
              exact hbound
            · rw [hw]
              rw [show ({ extractStatsPass env with
                warnings := w } : ExtractedStats).confidence =
                  (extractStatsPass env).confidence from rfl,
                show (extractStatsPass env).confidence = 0 from rfl]
              constructor <;> norm_num
          · intro hne
            cases h3 : env.raiseAt with
            | none =>
                rw [show extractBody env = extractMain env from by
                  unfold extractBody; rw [h3]]
                rw [countPopulated_extractMain]
                exact hmain _
            | some se =>
                obtain ⟨stage, e⟩ := se
                cases stage with
                | equipScan =>
                    exact absurd h3 (hne e)
                | diagnosticSave =>
                    rw [extractBody_diagnosticSave env e h3]
                    split
                    · rw [countPopulated_warnings, countPopulated_extractMain]
                      exact hmain _
                    · rw [countPopulated_extractMain]
                      exact hmain _
          · intro e _ _ he
            rw [extractBody_equipScan env e he]
            exact ⟨rfl, by simp⟩

/-- Witness for C4 amended: the identity holds of an unaborted run, and
an equipment-section abort returns confidence 0. -/
theorem confidence_formula_amended_witness :
    (extract_stats_v2 {}).confidence =
      (countPopulated (extract_stats_v2 {}) : ℚ) / 22 ∧
    (extract_stats_v2
      { nameMatch := some ("Mei-Li", 1770)
        raiseAt := some (RaiseStage.equipScan, "boom") }).confidence = 0 :=
  ⟨(confidence_formula_amended {}).2.1 (fun _ h => Option.noConfusion h),
   ((confidence_formula_amended _).2.2 "boom" rfl rfl rfl).1⟩

set_option maxHeartbeats 2000000 in
/-- Exhaustive check over the catalog: the normalised form of every
catalog key resolves to that key's own slot. -/
theorem canonical_resolution_check :
    (CARD_TO_SLOT.all (fun ks =>
      (resolveName (normKey ks.1)).map Prod.fst == some ks.2)) = true := by
  decide

/-- C6 counterexample: the claim says every result of the engine carries
exactly six equipment entries, but the missing-image early return of
`extract_stats_v2` carries an empty equipment list. -/
theorem equipment_six_cex :
    (extract_stats_v2 { imageExists := false }).equipment.length ≠ 6 := by
  decide

/-- Outside an equipment-section abort, the returned equipment list is
the fully assembled one: the catch-all either never fires or fires only
inside the diagnostic save, after the list was written. -/
theorem extractBody_equipment (env : ExtractEnv)
    (h3 : ∀ e, env.raiseAt ≠ some (RaiseStage.equipScan, e)) :
    (extractBody env).equipment = (extractMain env).equipment := by
  cases h : env.raiseAt with
  | none =>
      rw [show extractBody env = extractMain env from by
        unfold extractBody; rw [h]]
  | some se =>
      obtain ⟨stage, e⟩ := se
      cases stage with
      | equipScan => exact absurd h (h3 e)
      | diagnosticSave =>
          rw [extractBody_diagnosticSave env e h]
          split <;> rfl

/-- C6 amended: every result of a successful read that is not aborted by
an uncaught internal error in the equipment section carries exactly six
equipment entries, one per slot 1..6 in order; a slot with no catalog
match and no detected level digits is the empty item with name and level
both absent; and the canonical name of every catalog entry resolves to
that entry's own slot.  (A missing or undecodable image, or an aborted
run, instead returns an empty equipment list.) -/
theorem equipment_slots_amended (env : ExtractEnv)
    (h1 : env.imageExists = true) (h2 : env.imageDecodable = true)
    (h3 : ∀ e, env.raiseAt ≠ some (RaiseStage.equipScan, e)) :
    ((extract_stats_v2 env).equipment.map (fun e => e.slot) =
      [1, 2, 3, 4, 5, 6]) ∧
    ((extract_stats_v2 env).equipment =
      (List.range' 1 6).map (assembleSlot (foundEquipment env))) ∧
    (∀ slot, (foundEquipment env).lookup slot = none →
      assembleSlot (foundEquipment env) slot =
        { slot := slot, card_name := none, card_level := none }) ∧
    (∀ ks ∈ CARD_TO_SLOT,
      (resolveName (normKey ks.1)).map Prod.fst = some ks.2) := by
  rw [extract_stats_v2_readable env h1 h2, extractBody_equipment env h3]
  refine ⟨?_, rfl, ?_, ?_⟩
  · show ((List.range' 1 6).map (assembleSlot (foundEquipment env))).map
        (fun e => e.slot) = _
    simp only [List.map_map, Function.comp_def, assembleSlot_slot]
    decide
  · intro slot h
    simp [assembleSlot, h]
  · intro ks hks
    have h := List.all_eq_true.mp canonical_resolution_check ks hks
    exact eq_of_beq h

/-- Witness for C6 amended at the default environment. -/
theorem equipment_slots_amended_witness :
    (extract_stats_v2 {}).equipment.map (fun e => e.slot) =
      [1, 2, 3, 4, 5, 6] :=
  (equipment_slots_amended {} rfl rfl (fun _ h => Option.noConfusion h)).1

/-- C7: an extraction never escapes as an exception in the embedded
semantics; a missing image path and an undecodable image each return the
zero-confidence result carrying a human-readable warning; an uncaught
internal exception is absorbed by the catch-all handler, which returns
the result as populated so far with the error message appended to its
warnings; and a run in which every recognition call fails (no regex
capture, no card match, empty OCR texts, no zone level) but nothing
raises still returns a result, with every field missing, zero confidence,
and the six empty equipment slots. -/
theorem extraction_total_graceful :
    (∀ env : ExtractEnv, env.imageExists = false →
      extract_stats_v2 env = { warnings := ["Image non trouvee"] }) ∧
    (∀ env : ExtractEnv, env.imageExists = true → env.imageDecodable = false →
      extract_stats_v2 env = { warnings := ["Impossible de lire l\x27image"] }) ∧
    (∀ (env : ExtractEnv) (e : String),
      env.imageExists = true → env.imageDecodable = true →
      env.raiseAt = some (RaiseStage.equipScan, e) →
      extract_stats_v2 env = { extractStatsPass env with
        warnings := (extractStatsPass env).warnings ++ ["Erreur: " ++ e] }) ∧
    (∀ (env : ExtractEnv) (e : String),
      env.imageExists = true → env.imageDecodable = true →
      env.raiseAt = some (RaiseStage.diagnosticSave, e) →
      extract_stats_v2 env = extractMain env ∨
      extract_stats_v2 env = { extractMain env with
        warnings := (extractMain env).warnings ++ ["Erreur: " ++ e] }) ∧
    (∀ env : ExtractEnv, env.imageExists = true → env.imageDecodable = true →
      env.raiseAt = none →
      env.nameMatch = none → env.nameOnlyMatch = none →
      env.mGlobalPower = none → env.mAgility = none → env.mEndurance = none →
      env.mServe = none → env.mVolley = none → env.mForehand = none →
      env.mBackhand = none → env.cardMatches = [] →
      extract_text_with_debug env.equipPassesA = [] →
      extract_text_with_debug env.equipPassesB = [] →
      extract_text_with_debug env.equipPassesC = [] →
      (∀ z, detectLevel (env.zonePasses z) = none) →
      countPopulated (extract_stats_v2 env) = 0 ∧
      (extract_stats_v2 env).confidence = 0 ∧
      (extract_stats_v2 env).equipment =
        (List.range' 1 6).map (fun slot => { slot := slot })) := by
  refine ⟨?_, ?_, ?_, ?_, ?_⟩
  · intro env h
    simp [extract_stats_v2, h]
  · intro env h1 h2
    simp [extract_stats_v2, h1, h2]
  · intro env e h1 h2 he
    rw [extract_stats_v2_readable env h1 h2]
    exact extractBody_equipScan env e he
  · intro env e h1 h2 he
    rw [extract_stats_v2_readable env h1 h2, extractBody_diagnosticSave env e he]
    split
    · exact Or.inr rfl
    · exact Or.inl rfl
  · intro env h1 h2 hra hnm hno hp ha hend hs hv hf hb hcm hA hB hC hz
    have hfm : foundEquipment env = [] := by
      unfold foundEquipment equipTextNormalized
      rw [hA, hB, hC, hcm]
      rw [show applyCardMatches [] [] = [] from rfl]
      rw [show (([] : Text) ++ '\n' :: ([] : Text) ++ '\n' :: ([] : Text)) =
        ['\n', '\n'] from rfl]
      rw [show applyNameOnly (normalizeText ['\n', '\n']) [] = [] from by decide]
      simp [applyZoneLevels, hz, show List.range' 1 6 = [1, 2, 3, 4, 5, 6] from rfl]
    have hfc : extractFoundCount env = 0 := by
      unfold extractFoundCount
      rw [hnm, hno, hp, ha, hend, hs, hv, hf, hb, hfm, hz 0]
      simp [nameStage, applyStat, cntOpt, assembleSlot,
        show List.range' 1 6 = [1, 2, 3, 4, 5, 6] from rfl]
    rw [extract_stats_v2_main env h1 h2 hra]
    refine ⟨?_, ?_, ?_⟩
    · rw [countPopulated_extractMain]
      exact hfc
    · show (extractFoundCount env : ℚ) / 22 = 0
      rw [hfc]
      norm_num
    · show (List.range' 1 6).map (assembleSlot (foundEquipment env)) = _
      rw [hfm]
      rfl

/-- Witness for C7: a missing image, an equipment-section abort, and an
all-failures run, at concrete environments. -/
theorem extraction_total_graceful_witness :
    extract_stats_v2 { imageExists := false } =
      { warnings := ["Image non trouvee"] } ∧
    extract_stats_v2 { raiseAt := some (RaiseStage.equipScan, "boom") } =
      { extractStatsPass { raiseAt := some (RaiseStage.equipScan, "boom") } with
        warnings := (extractStatsPass
          { raiseAt := some (RaiseStage.equipScan, "boom") }).warnings ++
            ["Erreur: boom"] } ∧
    countPopulated (extract_stats_v2 {}) = 0 :=
  ⟨extraction_total_graceful.1 _ rfl,
   extraction_total_graceful.2.2.1 _ "boom" rfl rfl rfl,
   (extraction_total_graceful.2.2.2.2 {} rfl rfl rfl rfl rfl rfl rfl rfl rfl
      rfl rfl rfl rfl rfl rfl rfl (fun _ => rfl)).1⟩

/-- Property of an optional stat field: absent or within 1..999. -/
def statInRange (o : Option Nat) : Prop :=
  ∀ v, o = some v → 1 ≤ v ∧ v ≤ 999

/-- An absent field is trivially in range. -/
theorem statInRange_none : statInRange none := fun _ h => nomatch h

/-- On every body path — finished, aborted in the equipment section, or
aborted in the diagnostic save — the seven attribute fields are the ones
the stats pass wrote. -/
theorem extractBody_statFields (env : ExtractEnv) :
    (extractBody env).global_power = (applyStat "global_power" env.mGlobalPower).1 ∧
    (extractBody env).agility = (applyStat "agility" env.mAgility).1 ∧
    (extractBody env).endurance = (applyStat "endurance" env.mEndurance).1 ∧
    (extractBody env).serve = (applyStat "serve" env.mServe).1 ∧
    (extractBody env).volley = (applyStat "volley" env.mVolley).1 ∧
    (extractBody env).forehand = (applyStat "forehand" env.mForehand).1 ∧
    (extractBody env).backhand = (applyStat "backhand" env.mBackhand).1 := by
  rcases extractBody_cases env with ⟨w, hw⟩ | ⟨w, hw⟩ <;> rw [hw] <;>
    exact ⟨rfl, rfl, rfl, rfl, rfl, rfl, rfl⟩

/-- Every warning the stats pass recorded survives into the returned
result on every body path; the catch-all only ever appends. -/
theorem extractBody_warnings_mono (env : ExtractEnv) :
    ∀ x ∈ (extractStatsPass env).warnings, x ∈ (extractBody env).warnings := by
  intro x hx
  cases h : env.raiseAt with
  | none =>
      rw [show extractBody env = extractMain env from by
        unfold extractBody; rw [h]]
      exact hx
  | some se =>
      obtain ⟨stage, e⟩ := se
      cases stage with
      | equipScan =>
          rw [extractBody_equipScan env e h]
          exact List.mem_append_left _ hx
      | diagnosticSave =>
          rw [extractBody_diagnosticSave env e h]
          split
          · exact List.mem_append_left _ hx
          · exact hx

/-- C9: in every returned result, global power and the six attributes
are absent or integers in 1..999; and on a successful read an attribute
capture outside that range is dropped from the result and recorded as an
out-of-range warning. -/
theorem stat_values_in_range :
    (∀ env : ExtractEnv,
      statInRange (extract_stats_v2 env).global_power ∧
      statInRange (extract_stats_v2 env).agility ∧
      statInRange (extract_stats_v2 env).endurance ∧
      statInRange (extract_stats_v2 env).serve ∧
      statInRange (extract_stats_v2 env).volley ∧
      statInRange (extract_stats_v2 env).forehand ∧
      statInRange (extract_stats_v2 env).backhand) ∧
    (∀ env : ExtractEnv, env.imageExists = true → env.imageDecodable = true →
      ∀ v, ¬(1 ≤ v ∧ v ≤ 999) →
      (env.mGlobalPower = some v →
        (extract_stats_v2 env).global_power = none ∧
        ("global_power: valeur hors limite (" ++ toString v ++ ")") ∈
          (extract_stats_v2 env).warnings) ∧
      (env.mAgility = some v →
        (extract_stats_v2 env).agility = none ∧
        ("agility: valeur hors limite (" ++ toString v ++ ")") ∈
          (extract_stats_v2 env).warnings) ∧
      (env.mEndurance = some v →
        (extract_stats_v2 env).endurance = none ∧
        ("endurance: valeur hors limite (" ++ toString v ++ ")") ∈
          (extract_stats_v2 env).warnings) ∧
      (env.mServe = some v →
        (extract_stats_v2 env).serve = none ∧
        ("serve: valeur hors limite (" ++ toString v ++ ")") ∈
          (extract_stats_v2 env).warnings) ∧
      (env.mVolley = some v →
        (extract_stats_v2 env).volley = none ∧
        ("volley: valeur hors limite (" ++ toString v ++ ")") ∈
          (extract_stats_v2 env).warnings) ∧
      (env.mForehand = some v →
        (extract_stats_v2 env).forehand = none ∧
        ("forehand: valeur hors limite (" ++ toString v ++ ")") ∈
          (extract_stats_v2 env).warnings) ∧
      (env.mBackhand = some v →
        (extract_stats_v2 env).backhand = none ∧
        ("backhand: valeur hors limite (" ++ toString v ++ ")") ∈
          (extract_stats_v2 env).warnings)) := by
  constructor
  · intro env
    cases h1 : env.imageExists with
    | false =>
        have hr : extract_stats_v2 env = { warnings := ["Image non trouvee"] } := by
          simp [extract_stats_v2, h1]
        rw [hr]
        exact ⟨statInRange_none, statInRange_none, statInRange_none,
          statInRange_none, statInRange_none, statInRange_none, statInRange_none⟩
    | true =>
        cases h2 : env.imageDecodable with
        | false =>
            have hr : extract_stats_v2 env =
                { warnings := ["Impossible de lire l\x27image"] } := by
              simp [extract_stats_v2, h1, h2]
            rw [hr]
            exact ⟨statInRange_none, statInRange_none, statInRange_none,
              statInRange_none, statInRange_none, statInRange_none, statInRange_none⟩
        | true =>
            rw [extract_stats_v2_readable env h1 h2]
            obtain ⟨hgp, hag, hen, hse, hvo, hfo, hba⟩ :=
              extractBody_statFields env
            rw [hgp, hag, hen, hse, hvo, hfo, hba]
            exact ⟨applyStat_range _ _, applyStat_range _ _, applyStat_range _ _,
              applyStat_range _ _, applyStat_range _ _, applyStat_range _ _,
              applyStat_range _ _⟩
  · intro env h1 h2 v hv
    rw [extract_stats_v2_readable env h1 h2]
    obtain ⟨hgp, hag, hen, hse, hvo, hfo, hba⟩ := extractBody_statFields env
    have hmono := extractBody_warnings_mono env
    refine ⟨?_, ?_, ?_, ?_, ?_, ?_, ?_⟩ <;> intro hm
    · refine ⟨?_, hmono _ ?_⟩
      · rw [hgp, hm]
        exact (applyStat_discard _ v hv).1
      · simp only [extractStatsPass]
        rw [hm, (applyStat_discard "global_power" v hv).2]
        simp
    · refine ⟨?_, hmono _ ?_⟩
      · rw [hag, hm]
        exact (applyStat_discard _ v hv).1
      · simp only [extractStatsPass]
        rw [hm, (applyStat_discard "agility" v hv).2]
        simp
    · refine ⟨?_, hmono _ ?_⟩
      · rw [hen, hm]
        exact (applyStat_discard _ v hv).1
      · simp only [extractStatsPass]
        rw [hm, (applyStat_discard "endurance" v hv).2]
        simp
    · refine ⟨?_, hmono _ ?_⟩
      · rw [hse, hm]
        exact (applyStat_discard _ v hv).1
      · simp only [extractStatsPass]
        rw [hm, (applyStat_discard "serve" v hv).2]
        simp
    · refine ⟨?_, hmono _ ?_⟩
      · rw [hvo, hm]
        exact (applyStat_discard _ v hv).1
      · simp only [extractStatsPass]
        rw [hm, (applyStat_discard "volley" v hv).2]
        simp
    · refine ⟨?_, hmono _ ?_⟩
      · rw [hfo, hm]
        exact (applyStat_discard _ v hv).1
      · simp only [extractStatsPass]
        rw [hm, (applyStat_discard "forehand" v hv).2]
        simp
    · refine ⟨?_, hmono _ ?_⟩
      · rw [hba, hm]
        exact (applyStat_discard _ v hv).1
      · simp only [extractStatsPass]
        rw [hm, (applyStat_discard "backhand" v hv).2]
        simp

/-- Witness for C9: a concrete out-of-range capture (0, as the pattern
admits through a leading-zeros read) is dropped and warned about. -/
theorem stat_values_in_range_witness :
    (extract_stats_v2 { mGlobalPower := some 0 }).global_power = none ∧
    ("global_power: valeur hors limite (" ++ toString 0 ++ ")") ∈
      (extract_stats_v2 { mGlobalPower := some 0 }).warnings :=
  (stat_values_in_range.2 { mGlobalPower := some 0 } rfl rfl 0
    (by omega)).1 rfl
